import Mathlib

/-!
Verification development for the kaonavi-mcp-server tabular query layer.

The embedding models `src/kaonavi_mcp_server/server.py`:
nested upstream member/sheet batches are flattened into a pandas
DataFrame (modelled as `Table`), optionally filtered with a pandas-style
query string (`df.query`), and returned as JSON records, while
`describe_member_fields` / `describe_sheet_fields` report per-column
dtype and sample values.  The flattener and the TTL cache live in the
`kaonavi_api_executor` package, whose code is not part of the sources
here; those two components are modelled from the specification, and the
relevant doc comments say so.  The behaviour of pandas `DataFrame.query`
and of DataFrame dtype inference is modelled from pandas semantics, since
`server.py` delegates to pandas directly.
-/

namespace KaonaviMcp

/-- Scalar cell values occurring in upstream records: strings, integers and
booleans.  A null cell of a `Table` is `Option.none` over this type. -/
inductive Value where
  | vStr (s : String)
  | vInt (n : Int)
  | vBool (b : Bool)
deriving DecidableEq, Repr

/-- Comparison operators accepted by the pandas-style query grammar used by
`get_members` / `get_sheets` query strings. -/
inductive CmpOp where
  | eq
  | ne
  | lt
  | le
  | gt
  | ge
deriving DecidableEq, Repr

/-- Parsed boolean predicate over column references, comparison operators and
logical connectives, as accepted by `DataFrame.query`. -/
inductive Pred where
  | cmp (col : String) (op : CmpOp) (lit : Value)
  | and (p q : Pred)
  | or (p q : Pred)
  | not (p : Pred)
deriving DecidableEq, Repr

/-- Errors raised inside the `df.query(query)` call of `get_members` /
`get_sheets` (server.py lines 158 and 177), modelled from pandas:
a Python `SyntaxError` for an unparsable expression, an
`UndefinedVariableError` for a column name not in the DataFrame, and a
`TypeError` for an unsupported ordered comparison. -/
inductive QueryError where
  | parseError
  | undefinedVariable (name : String)
  | typeError (msg : String)
deriving DecidableEq, Repr

/-- Python name of the runtime type of a value, as it appears in pandas
`TypeError` messages. -/
def pyTypeName : Value → String
  | Value.vStr _ => "str"
  | Value.vInt _ => "int"
  | Value.vBool _ => "bool"

/-- Surface syntax of a comparison operator. -/
def cmpSymbol : CmpOp → String
  | CmpOp.eq => "=="
  | CmpOp.ne => "!="
  | CmpOp.lt => "<"
  | CmpOp.le => "<="
  | CmpOp.gt => ">"
  | CmpOp.ge => ">="

/-- Message text of a `QueryError`, modelled after the `str()` of the
corresponding CPython/pandas exception: this is what the f-string
`f"Invalid query: \x7be\x7d"` of server.py lines 160/179 interpolates. -/
def QueryError.message : QueryError → String
  | QueryError.parseError => "invalid syntax (<unknown>, line 1)"
  | QueryError.undefinedVariable n =>
      "name \x27" ++ n ++ "\x27 is not defined"
  | QueryError.typeError m => m

/-- Record of a flattened table: an ordered mapping from column name to a
possibly-null scalar, as produced by `DataFrame.to_dict(orient="records")`. -/
abbrev Record := List (String × Option Value)

/-- Flattened tabular data, modelling the pandas DataFrame produced by the
flatteners: an ordered column list and the ordered rows. -/
structure Table where
  cols : List String
  rows : List Record
deriving DecidableEq

/-- Raw upstream record: one member / sheet-row as a flat field-name-to-value
mapping.  Nested upstream structures are represented here with their
path-joined field names already in place, since the claims under study do
not depend on the path-joining scheme itself. -/
abbrev RawRecord := List (String × Value)

/-- Raw upstream batch handed to the flattener by the API executor. -/
abbrev RawBatch := List RawRecord

/-- Field lookup in a flattened record; an absent key reads as null, matching
how pandas represents a missing value as NaN. -/
def lookupField (row : Record) (c : String) : Option Value :=
  match row.find? (fun p => p.1 == c) with
  | some p => p.2
  | none => none

/-- Field lookup in a raw upstream record: `none` when the record does not
carry the field at all. -/
def lookupRaw (r : RawRecord) (c : String) : Option Value :=
  match r.find? (fun p => p.1 == c) with
  | some p => some p.2
  | none => none

/-- Keys of a raw record in order. -/
def rawKeys (r : RawRecord) : List String :=
  r.map (fun p => p.1)

/-- Appends to `acc` every key of `ks` not already present, preserving
first-seen order. -/
def addCols (acc : List String) (ks : List String) : List String :=
  ks.foldl (fun a k => if k ∈ a then a else a ++ [k]) acc

/-- Union of all field names across the batch in first-seen order; this is
the column set of the flattened DataFrame. -/
def columnUnion (batch : RawBatch) : List String :=
  batch.foldl (fun a r => addCols a (rawKeys r)) []

/-- Modelled from the spec: the flattener of the `kaonavi_api_executor`
package (MembersMemberDataFlattener / SheetsMemberDataFlattener), whose
code is not under src/.  Per spec section 4.1 it computes the union of all
field names as the column set (first-seen order) and gives every record an
explicit null for each column it is missing. -/
def flatten (batch : RawBatch) : Table :=
  let cs := columnUnion batch
  { cols := cs
    rows := batch.map (fun r => cs.map (fun k => (k, lookupRaw r k))) }

/-- Integer view of a Python value where Python would coerce: booleans are
the integers 0 and 1 for comparison purposes. -/
def boolToInt (b : Bool) : Int :=
  if b then 1 else 0

/-- Integer comparison outcome. -/
def compareInts (a b : Int) : CmpOp → Bool
  | CmpOp.eq => a = b
  | CmpOp.ne => a ≠ b
  | CmpOp.lt => a < b
  | CmpOp.le => a ≤ b
  | CmpOp.gt => a > b
  | CmpOp.ge => a ≥ b

/-- Lexicographic string comparison outcome, as Python compares `str`. -/
def compareStrs (a b : String) : CmpOp → Bool
  | CmpOp.eq => a = b
  | CmpOp.ne => a ≠ b
  | CmpOp.lt => a < b
  | CmpOp.le => a ≤ b
  | CmpOp.gt => b < a
  | CmpOp.ge => b ≤ a

/-- Message of the pandas `TypeError` raised by an unsupported ordered
comparison between mismatched runtime types. -/
def typeErrorMsg (op : CmpOp) (a b : Value) : String :=
  "\x27" ++ cmpSymbol op ++ "\x27 not supported between instances of \x27"
    ++ pyTypeName a ++ "\x27 and \x27" ++ pyTypeName b ++ "\x27"

/-- Comparison of one cell against a literal, modelled from pandas semantics:
a null (NaN) cell compares unequal to everything and false under ordered
operators; numbers and booleans intercompare as in Python; strings compare
lexicographically; an ordered comparison between a string and a number
raises `TypeError`, while equality between mismatched types is simply
false (and inequality true). -/
def evalCmp (v : Option Value) (op : CmpOp) (lit : Value) :
    Except QueryError Bool :=
  match v with
  | none =>
    match op with
    | CmpOp.ne => Except.ok true
    | _ => Except.ok false
  | some a =>
    match a, lit with
    | Value.vInt n, Value.vInt m => Except.ok (compareInts n m op)
    | Value.vStr s, Value.vStr t => Except.ok (compareStrs s t op)
    | Value.vBool x, Value.vBool y =>
        Except.ok (compareInts (boolToInt x) (boolToInt y) op)
    | Value.vBool x, Value.vInt m =>
        Except.ok (compareInts (boolToInt x) m op)
    | Value.vInt n, Value.vBool y =>
        Except.ok (compareInts n (boolToInt y) op)
    | a, b =>
      match op with
      | CmpOp.eq => Except.ok false
      | CmpOp.ne => Except.ok true
      | _ => Except.error (QueryError.typeError (typeErrorMsg op a b))

/-- Evaluation of a predicate on one row.  Connectives evaluate both sides,
as the vectorized pandas evaluation does (no short-circuiting of errors). -/
def evalRow : Pred → Record → Except QueryError Bool
  | Pred.cmp c op lit, row => evalCmp (lookupField row c) op lit
  | Pred.and p q, row =>
    match evalRow p row, evalRow q row with
    | Except.ok a, Except.ok b => Except.ok (a && b)
    | Except.error e, _ => Except.error e
    | _, Except.error e => Except.error e
  | Pred.or p q, row =>
    match evalRow p row, evalRow q row with
    | Except.ok a, Except.ok b => Except.ok (a || b)
    | Except.error e, _ => Except.error e
    | _, Except.error e => Except.error e
  | Pred.not p, row =>
    match evalRow p row with
    | Except.ok a => Except.ok (!a)
    | Except.error e => Except.error e

/-- Column names referenced by a predicate. -/
def predCols : Pred → List String
  | Pred.cmp c _ _ => [c]
  | Pred.and p q => predCols p ++ predCols q
  | Pred.or p q => predCols p ++ predCols q
  | Pred.not p => predCols p

/-- Name resolution performed by pandas before evaluating the expression: the
first referenced column missing from the DataFrame raises
`UndefinedVariableError`. -/
def checkCols (p : Pred) (cols : List String) : Except QueryError Unit :=
  match (predCols p).find? (fun c => !(cols.contains c)) with
  | some c => Except.error (QueryError.undefinedVariable c)
  | none => Except.ok ()

/-- Row filtering: keeps the rows whose predicate evaluates true, in order;
any per-row evaluation error aborts the whole filter, as the vectorized
pandas evaluation raises. -/
def filterRows (p : Pred) : List Record → Except QueryError (List Record)
  | [] => Except.ok []
  | r :: rs =>
    match evalRow p r with
    | Except.error e => Except.error e
    | Except.ok b =>
      match filterRows p rs with
      | Except.error e => Except.error e
      | Except.ok rest => Except.ok (if b then r :: rest else rest)

/-- Model of `DataFrame.query` on a parsed predicate: resolve column names,
then filter rows preserving order and the column set. -/
def dfQuery (df : Table) (p : Pred) : Except QueryError Table :=
  match checkCols p df.cols with
  | Except.error e => Except.error e
  | Except.ok _ =>
    match filterRows p df.rows with
    | Except.error e => Except.error e
    | Except.ok rows2 => Except.ok { cols := df.cols, rows := rows2 }

/-- Splitting of a character list on a separator character, accumulating the
current chunk in reverse. -/
def splitAux (sep : Char) : List Char → List Char → List (List Char)
  | [], acc => [acc.reverse]
  | c :: cs, acc =>
    if c = sep then acc.reverse :: splitAux sep cs []
    else splitAux sep cs (c :: acc)

/-- Whitespace tokenization of a query string. -/
def tokenize (s : String) : List String :=
  ((splitAux ' ' s.toList []).map (fun cs => cs.asString)).filter
    (fun t => t ≠ "")

/-- Digit-string evaluation; `none` on any non-digit character. -/
def digitsToNat (acc : Nat) : List Char → Option Nat
  | [] => some acc
  | c :: cs =>
    if c.isDigit then digitsToNat (acc * 10 + (c.toNat - 48)) cs
    else none

/-- Integer parsing of a character list: optional leading minus sign, then
one or more digits. -/
def strToInt : List Char → Option Int
  | [] => none
  | '-' :: rest =>
    match rest with
    | [] => none
    | _ => (digitsToNat 0 rest).map (fun n => -(n : Int))
  | cs => (digitsToNat 0 cs).map (fun n => (n : Int))

/-- Literal parsing: Python booleans, single-quoted strings, integers. -/
def parseLit (t : String) : Option Value :=
  if t = "True" then some (Value.vBool true)
  else if t = "False" then some (Value.vBool false)
  else
    match t.toList with
    | [] => none
    | c :: rest =>
      if c = '\x27' then
        match rest.reverse with
        | [] => none
        | d :: mid =>
          if d = '\x27' then some (Value.vStr mid.reverse.asString)
          else none
      else (strToInt (c :: rest)).map Value.vInt

/-- Operator token parsing. -/
def parseCmpOp (t : String) : Option CmpOp :=
  if t = "==" then some CmpOp.eq
  else if t = "!=" then some CmpOp.ne
  else if t = ">=" then some CmpOp.ge
  else if t = "<=" then some CmpOp.le
  else if t = ">" then some CmpOp.gt
  else if t = "<" then some CmpOp.lt
  else none

/-- Parsing of the token stream of a pandas-style query: comparisons
`col op literal` chained with `and` / `or`.  `none` models the Python
`SyntaxError` raised by pandas on a malformed expression (for instance the
two-token stream of the string consisting of a column name and a dangling
operator). -/
def parseQuery : List String → Option Pred
  | c :: o :: l :: rest =>
    match parseCmpOp o, parseLit l with
    | some op, some lit =>
      match rest with
      | [] => some (Pred.cmp c op lit)
      | "and" :: rest2 => (parseQuery rest2).map (Pred.and (Pred.cmp c op lit))
      | "or" :: rest2 => (parseQuery rest2).map (Pred.or (Pred.cmp c op lit))
      | _ => none
    | _, _ => none
  | _ => none

/-- Full `df.query(query)` pipeline on the raw string: parse, resolve, filter. -/
def runQuery (df : Table) (q : String) : Except QueryError Table :=
  match parseQuery (tokenize q) with
  | none => Except.error QueryError.parseError
  | some p => dfQuery df p

/-- Python truthiness of the optional query argument: the guard `if query:`
of server.py lines 156/175 is false for `None` and for the empty string. -/
def pyTruthy : Option String → Bool
  | none => false
  | some s => s ≠ ""

/-- Outcome serialized back to the caller: either the row dicts of
`df.to_dict(orient="records")`, or the error payload object
`json.dumps` of the mapping from the key "error" to the message. -/
inductive ToolResult where
  | rows (rs : List Record)
  | error (msg : String)
deriving DecidableEq

/-- Outcome is an error. -/
def isError (x : Except QueryError Bool) : Bool :=
  match x with
  | Except.error _ => true
  | Except.ok _ => false

/-- Query-and-serialize block shared by `get_members` (lines 156-163) and
`get_sheets` (lines 175-182): when the query argument is truthy, run
`df.query`; any exception is caught and returned as the payload with
message prefixed by "Invalid query: "; otherwise, and on success, return
the row records. -/
def queryBlock (df : Table) (query : Option String) : ToolResult :=
  if pyTruthy query then
    match runQuery df (query.getD "") with
    | Except.ok df2 => ToolResult.rows df2.rows
    | Except.error e => ToolResult.error ("Invalid query: " ++ e.message)
  else ToolResult.rows df.rows

/-- Model of `get_members` (server.py lines 150-163): the fetched upstream
batch is flattened, optionally filtered with the pandas query, and the
resulting rows (or the error payload) returned. -/
def get_members (result : RawBatch) (query : Option String) : ToolResult :=
  queryBlock (flatten result) query

/-- Deduplication keeping first occurrences, with an accumulator of the keys
seen so far; models `pandas.Series.unique`. -/
def dedupFirstAux (seen : List String) : List String → List String
  | [] => []
  | s :: rest =>
    if s ∈ seen then dedupFirstAux seen rest
    else s :: dedupFirstAux (s :: seen) rest

/-- Deduplication keeping first occurrences in order. -/
def dedupFirst (l : List String) : List String :=
  dedupFirstAux [] l

/-- String rendering of a cell value as Python `str()` produces it inside
`astype(str)`. -/
def renderValue : Value → String
  | Value.vStr s => s
  | Value.vInt n => toString n
  | Value.vBool true => "True"
  | Value.vBool false => "False"

/-- Values of one column of a table, in row order. -/
def columnValues (df : Table) (c : String) : List (Option Value) :=
  df.rows.map (fun r => lookupField r c)

/-- Model of `df[col].dropna().astype(str).unique().tolist()[:5]`
(server.py lines 124 and 142): drop nulls, render each value as a string,
deduplicate keeping first occurrences, truncate to five. -/
def sample_values (col : List (Option Value)) : List String :=
  (dedupFirst ((col.filterMap id).map renderValue)).take 5

/-- Value is a non-null integer cell. -/
def isIntCell : Option Value → Bool
  | some (Value.vInt _) => true
  | _ => false

/-- Value is an integer cell or a null. -/
def isIntOrNull : Option Value → Bool
  | some (Value.vInt _) => true
  | none => true
  | _ => false

/-- Value is a non-null boolean cell. -/
def isBoolCell : Option Value → Bool
  | some (Value.vBool _) => true
  | _ => false

/-- Model of the pandas dtype string `str(df[col].dtype)` (server.py lines
123 and 141) for a column built from Python objects: int64 when every cell
is an integer and the column is nonempty; float64 when the cells are
integers with at least one null (pandas promotes to float to hold NaN);
bool when every cell is a boolean; object in every other case — in
particular whenever any cell is a string, parseable as a number or not. -/
def dtypeOf (col : List (Option Value)) : String :=
  if col ≠ [] ∧ col.all isIntCell then "int64"
  else if col.any (fun v => v.isSome) ∧ col.all isIntOrNull then "float64"
  else if col ≠ [] ∧ col.all isBoolCell then "bool"
  else "object"

/-- Per-column info mapping built by `describe_member_fields` /
`describe_sheet_fields` (server.py lines 121-127 and 139-145): for each
column its dtype string and its sample values. -/
def describeInfo (df : Table) : List (String × String × List String) :=
  df.cols.map (fun c =>
    (c, dtypeOf (columnValues df c), sample_values (columnValues df c)))

/-- Model of `describe_member_fields` (server.py lines 115-129): flatten the
fetched batch and report per-column dtype and sample values. -/
def describe_member_fields (result : RawBatch) :
    List (String × String × List String) :=
  describeInfo (flatten result)

/-- Model of the `GetSheetsApi` object: it carries the currently selected
sheet id, mutated by `set_sheet_id`. -/
structure GetSheetsApi where
  sheet_id : Option Int
deriving DecidableEq, Repr

/-- Model of `GetSheetsApi.set_sheet_id`: overwrite the selected sheet id. -/
def GetSheetsApi.set_sheet_id (_api : GetSheetsApi) (i : Int) : GetSheetsApi :=
  { sheet_id := some i }

/-- Module-level mutable state of server.py: the single shared
`get_sheets_api` object created at import time (line 28) and referenced by
the `sheets_api_executor` (line 29). -/
structure ServerState where
  get_sheets_api : GetSheetsApi
deriving DecidableEq, Repr

/-- State of server.py right after import: no sheet id has been selected. -/
def initialState : ServerState :=
  { get_sheets_api := { sheet_id := none } }

/-- Model of `sheets_api_executor.execute`: the upstream fetch reads the
sheet id currently selected on the shared `get_sheets_api` object.  The
upstream response is abstracted as a function `fetch` of that selector. -/
def sheetsExecute (fetch : Option Int → RawBatch) (st : ServerState) :
    RawBatch :=
  fetch st.get_sheets_api.sheet_id

/-- Model of `describe_sheet_fields` (server.py lines 132-147): set the sheet
id on the shared api object, execute the fetch, flatten and report field
info.  The returned state is the module state after the call. -/
def describe_sheet_fields (fetch : Option Int → RawBatch) (st : ServerState)
    (sheet_id : Int) : ServerState × List (String × String × List String) :=
  let st1 := { st with get_sheets_api := st.get_sheets_api.set_sheet_id sheet_id }
  let result := sheetsExecute fetch st1
  (st1, describeInfo (flatten result))

/-- Model of `get_sheets` (server.py lines 166-182): set the sheet id on the
shared api object, execute the fetch, flatten, optionally filter, return
rows or the error payload.  The returned state is the module state after
the call. -/
def get_sheets (fetch : Option Int → RawBatch) (st : ServerState)
    (sheet_id : Int) (query : Option String) : ServerState × ToolResult :=
  let st1 := { st with get_sheets_api := st.get_sheets_api.set_sheet_id sheet_id }
  let result := sheetsExecute fetch st1
  (st1, queryBlock (flatten result) query)

/-- Modelled from the spec: one TTL cache entry of the `kaonavi_api_executor`
ApiExecutor (package code not under src/) — a stored Table and its
creation timestamp, per spec section 4.3. -/
structure CacheEntry where
  table : Table
  timestamp : Nat
deriving DecidableEq

/-- Modelled from the spec: the TTL cache, one entry per source key. -/
structure Cache where
  entries : List (String × CacheEntry)
deriving DecidableEq

/-- Empty cache. -/
def Cache.empty : Cache :=
  { entries := [] }

/-- Entry lookup by source key. -/
def Cache.lookup (c : Cache) (key : String) : Option CacheEntry :=
  match c.entries.find? (fun p => p.1 == key) with
  | some p => some p.2
  | none => none

/-- Modelled from the spec: `put` replaces any existing entry for the key
with a fresh entry stamped with the current time. -/
def Cache.put (c : Cache) (key : String) (t : Table) (now : Nat) : Cache :=
  { entries :=
      (key, CacheEntry.mk t now) :: c.entries.filter (fun p => p.1 ≠ key) }

/-- Modelled from the spec: `get` returns the stored Table only while
`now - entry.timestamp < ttl`; a stale entry is ignored, not evicted
(`get` does not modify the cache). -/
def Cache.get (c : Cache) (key : String) (now ttl : Nat) : Option Table :=
  match c.lookup key with
  | some e => if now - e.timestamp < ttl then some e.table else none
  | none => none

/-- Stated from the spec's words, for comparison with the implementation
(spec section 4.2): ordered type-inference rules examining all non-null
values — integer when every value parses as an integer, else number when
all parse as a decimal number, else boolean when all are boolean literals,
else string. -/
def parsesAsInt (v : Value) : Bool :=
  match v with
  | Value.vInt _ => true
  | Value.vStr s => (strToInt s.toList).isSome
  | Value.vBool _ => false

/-- Stated from the spec's words: the value parses as a decimal number (an
integer also parses as a decimal number). -/
def parsesAsNumber (v : Value) : Bool :=
  match v with
  | Value.vInt _ => true
  | Value.vStr s =>
      (strToInt s.toList).isSome ||
        (match splitAux '.' s.toList [] with
         | [a, b] => (strToInt a).isSome && (digitsToNat 0 b).isSome && !b.isEmpty
         | _ => false)
  | Value.vBool _ => false

/-- Stated from the spec's words: the value is a boolean literal. -/
def isBoolLiteral (v : Value) : Bool :=
  match v with
  | Value.vBool _ => true
  | Value.vStr s => s == "true" || s == "false" || s == "True" || s == "False"
  | Value.vInt _ => false

/-- Stated from the spec's words (section 4.2): the ordered type-inference
rules integer, then number, then boolean, then string fallback, applied to
the non-null values of the column. -/
def specInferType (col : List (Option Value)) : String :=
  let vs := col.filterMap id
  if vs.all parsesAsInt then "integer"
  else if vs.all parsesAsNumber then "number"
  else if vs.all isBoolLiteral then "boolean"
  else "string"

theorem map_fst_pair (f : String → Option Value) (cs : List String) :
    List.map (Prod.fst ∘ fun k => (k, f k)) cs = cs := by
  induction cs with
  | nil => rfl
  | cons a l ih => simp only [List.map_cons, Function.comp_apply, ih]

theorem dedupFirstAux_sublist :
    ∀ (l seen : List String), List.Sublist (dedupFirstAux seen l) l
  | [], _ => List.Sublist.refl []
  | s :: rest, seen => by
    unfold dedupFirstAux
    by_cases h : s ∈ seen
    · simp only [if_pos h]
      exact (dedupFirstAux_sublist rest seen).trans (List.sublist_cons_self s rest)
    · simp only [if_neg h]
      exact List.Sublist.cons₂ s (dedupFirstAux_sublist rest (s :: seen))

theorem not_mem_seen_of_mem_dedupFirstAux :
    ∀ (l seen : List String) (x : String), x ∈ dedupFirstAux seen l → x ∉ seen
  | [], _, x => by simp [dedupFirstAux]
  | s :: rest, seen, x => by
    unfold dedupFirstAux
    by_cases h : s ∈ seen
    · simp only [if_pos h]
      exact not_mem_seen_of_mem_dedupFirstAux rest seen x
    · simp only [if_neg h, List.mem_cons]
      rintro (rfl | hx)
      · exact h
      · intro hxs
        exact not_mem_seen_of_mem_dedupFirstAux rest (s :: seen) x hx
          (List.mem_cons_of_mem s hxs)

theorem dedupFirstAux_nodup : ∀ (l seen : List String), (dedupFirstAux seen l).Nodup
  | [], _ => List.nodup_nil
  | s :: rest, seen => by
    unfold dedupFirstAux
    by_cases h : s ∈ seen
    · simp only [if_pos h]
      exact dedupFirstAux_nodup rest seen
    · simp only [if_neg h]
      refine List.nodup_cons.mpr ⟨?_, dedupFirstAux_nodup rest (s :: seen)⟩
      intro hs
      exact not_mem_seen_of_mem_dedupFirstAux rest (s :: seen) s hs
        (List.mem_cons_self s seen)

theorem dedupFirst_sublist (l : List String) : List.Sublist (dedupFirst l) l :=
  dedupFirstAux_sublist l []

theorem dedupFirst_nodup (l : List String) : (dedupFirst l).Nodup :=
  dedupFirstAux_nodup l []

theorem filterRows_error_of_any (p : Pred) :
    ∀ (rows : List Record),
      rows.any (fun r => isError (evalRow p r)) = true →
      ∃ e, filterRows p rows = Except.error e
  | [], h => by simp at h
  | r :: rs, h => by
    unfold filterRows
    cases hr : evalRow p r with
    | error e => exact ⟨e, rfl⟩
    | ok b =>
      have hrs : rs.any (fun r => isError (evalRow p r)) = true := by
        simp only [List.any_cons, hr, isError, Bool.false_or] at h
        exact h
      obtain ⟨e, he⟩ := filterRows_error_of_any p rs hrs
      exact ⟨e, by rw [he]⟩

theorem checkCols_error_of_not_mem (p : Pred) (cols : List String)
    (h : ∃ c ∈ predCols p, c ∉ cols) :
    ∃ c, c ∈ predCols p ∧ c ∉ cols ∧
      checkCols p cols = Except.error (QueryError.undefinedVariable c) := by
  have hsome : ((predCols p).find? (fun c => !(cols.contains c))).isSome := by
    rw [List.find?_isSome]
    obtain ⟨c, hc, hnc⟩ := h
    exact ⟨c, hc, by simpa using hnc⟩
  obtain ⟨c0, hfind⟩ := Option.isSome_iff_exists.mp hsome
  refine ⟨c0, List.mem_of_find?_eq_some hfind, ?_, ?_⟩
  · have hp := List.find?_some hfind
    simpa using hp
  · unfold checkCols
    rw [hfind]

theorem flatten_row_keys (batch : RawBatch) (row : Record)
    (h : row ∈ (flatten batch).rows) :
    row.map Prod.fst = (flatten batch).cols := by
  simp only [flatten, List.mem_map] at h
  obtain ⟨r, _, rfl⟩ := h
  simp only [flatten, List.map_map]
  exact map_fst_pair (lookupRaw r) (columnUnion batch)

theorem mem_addCols_of_mem_acc (ks : List String) :
    ∀ (acc : List String) (x : String), x ∈ acc → x ∈ addCols acc ks := by
  induction ks with
  | nil => intro acc x h; simpa [addCols]
  | cons k ks ih =>
    intro acc x h
    unfold addCols at *
    simp only [List.foldl_cons]
    apply ih
    by_cases hk : k ∈ acc
    · simpa [hk]
    · simp only [if_neg hk]
      exact List.mem_append_left _ h

theorem mem_addCols_of_mem (ks : List String) :
    ∀ (acc : List String) (k : String), k ∈ ks → k ∈ addCols acc ks := by
  induction ks with
  | nil => intro acc k h; simp at h
  | cons k0 ks ih =>
    intro acc k h
    rcases List.mem_cons.mp h with rfl | hk
    · unfold addCols
      simp only [List.foldl_cons]
      apply mem_addCols_of_mem_acc
      by_cases hk0 : k ∈ acc
      · simp [hk0]
      · simp only [if_neg hk0]
        exact List.mem_append_right _ (List.mem_singleton_self k)
    · unfold addCols
      simp only [List.foldl_cons]
      exact ih _ k hk

theorem mem_foldl_addCols (batch : RawBatch) :
    ∀ (acc : List String) (x : String), x ∈ acc →
      x ∈ batch.foldl (fun a r => addCols a (rawKeys r)) acc := by
  induction batch with
  | nil => intro acc x h; simpa
  | cons r rs ih =>
    intro acc x h
    simp only [List.foldl_cons]
    exact ih _ x (mem_addCols_of_mem_acc _ _ x h)

theorem columnUnion_complete (batch : RawBatch) (r : RawRecord) (k : String)
    (hr : r ∈ batch) (hk : k ∈ rawKeys r) : k ∈ columnUnion batch := by
  obtain ⟨l1, l2, rfl⟩ := List.append_of_mem hr
  unfold columnUnion
  rw [List.foldl_append]
  simp only [List.foldl_cons]
  exact mem_foldl_addCols l2 _ k (mem_addCols_of_mem _ _ k hk)

theorem dtypeOf_object_of_str (col : List (Option Value)) (s : String)
    (h : some (Value.vStr s) ∈ col) : dtypeOf col = "object" := by
  have h1 : ¬ (col.all isIntCell = true) := by
    intro hall
    have := List.all_eq_true.mp hall _ h
    simp [isIntCell] at this
  have h2 : ¬ (col.all isIntOrNull = true) := by
    intro hall
    have := List.all_eq_true.mp hall _ h
    simp [isIntOrNull] at this
  have h3 : ¬ (col.all isBoolCell = true) := by
    intro hall
    have := List.all_eq_true.mp hall _ h
    simp [isBoolCell] at this
  unfold dtypeOf
  rw [if_neg (fun hh => h1 hh.2), if_neg (fun hh => h2 hh.2),
    if_neg (fun hh => h3 hh.2)]

/-- C1: a predicate referencing a column absent from the flattened Table's
column set makes the whole list-rows operation fail with a structured
error payload naming the unknown column — never an empty row list and
never a silent success. -/
theorem get_members_unknown_column (result : RawBatch) (q : String) (p : Pred)
    (hq : q ≠ "") (hp : parseQuery (tokenize q) = some p)
    (hc : ∃ c ∈ predCols p, c ∉ (flatten result).cols) :
    ∃ c, c ∈ predCols p ∧ c ∉ (flatten result).cols ∧
      get_members result (some q) =
        ToolResult.error ("Invalid query: " ++
          QueryError.message (QueryError.undefinedVariable c)) ∧
      get_members result (some q) ≠ ToolResult.rows [] := by
  obtain ⟨c0, hmem, hnot, hchk⟩ :=
    checkCols_error_of_not_mem p (flatten result).cols hc
  refine ⟨c0, hmem, hnot, ?_, ?_⟩
  · unfold get_members queryBlock runQuery
    simp [pyTruthy, hq, hp, dfQuery, hchk]
  · unfold get_members queryBlock runQuery
    simp [pyTruthy, hq, hp, dfQuery, hchk]

/-- Witness for C1 at a concrete input: a one-column table and the predicate
referencing the absent column salary. -/
theorem get_members_unknown_column_witness :
    ∃ c, c ∈ predCols (Pred.cmp "salary" CmpOp.ge (Value.vInt 30)) ∧
      c ∉ (flatten [[("age", Value.vInt 30)]]).cols ∧
      get_members [[("age", Value.vInt 30)]] (some "salary >= 30") =
        ToolResult.error ("Invalid query: " ++
          QueryError.message (QueryError.undefinedVariable c)) ∧
      get_members [[("age", Value.vInt 30)]] (some "salary >= 30") ≠
        ToolResult.rows [] :=
  get_members_unknown_column [[("age", Value.vInt 30)]] "salary >= 30"
    (Pred.cmp "salary" CmpOp.ge (Value.vInt 30))
    (by decide) (by decide) (by decide)

/-- C2 counterexample: the malformed predicate consisting of a column name
and a dangling operator is answered with the error payload whose message
is the parse exception text, which does not contain the original
predicate text — contradicting the claim that the payload carries the
original predicate text. -/
theorem get_members_malformed_payload_cex :
    get_members [[("age", Value.vInt 30)]] (some "age >=") =
      ToolResult.error "Invalid query: invalid syntax (<unknown>, line 1)" ∧
    ¬ List.IsInfix ("age >=".toList)
        ("Invalid query: invalid syntax (<unknown>, line 1)".toList) := by
  constructor
  · decide
  · decide

/-- C2 amended: a malformed (unparseable) predicate makes the operation
return the error payload built from the parse exception message — data,
not a crash — though the payload need not contain the predicate text. -/
theorem get_members_malformed_error (result : RawBatch) (q : String)
    (hq : q ≠ "") (hp : parseQuery (tokenize q) = none) :
    get_members result (some q) =
      ToolResult.error ("Invalid query: " ++
        QueryError.message QueryError.parseError) := by
  unfold get_members queryBlock runQuery
  simp [pyTruthy, hq, hp]

/-- Witness for the amended C2 at a concrete malformed predicate. -/
theorem get_members_malformed_error_witness :
    get_members [[("age", Value.vInt 30)]] (some "age >=") =
      ToolResult.error ("Invalid query: " ++
        QueryError.message QueryError.parseError) :=
  get_members_malformed_error [[("age", Value.vInt 30)]] "age >="
    (by decide) (by decide)

/-- C3: every sheet-scoped call overwrites the selected sheet id on the
shared module-level api object before fetching; the new selector persists
in the post-call state, the fetch targets exactly the id just set, and a
later fetch through the same shared object targets the most recently set
id. -/
theorem sheet_selector_shared_state (fetch : Option Int → RawBatch)
    (st : ServerState) (sheet_id : Int) (query : Option String) :
    (get_sheets fetch st sheet_id query).1.get_sheets_api.sheet_id
        = some sheet_id ∧
    (describe_sheet_fields fetch st sheet_id).1.get_sheets_api.sheet_id
        = some sheet_id ∧
    (get_sheets fetch st sheet_id query).2
        = queryBlock (flatten (fetch (some sheet_id))) query ∧
    (describe_sheet_fields fetch st sheet_id).2
        = describeInfo (flatten (fetch (some sheet_id))) ∧
    sheetsExecute fetch (get_sheets fetch st sheet_id query).1
        = fetch (some sheet_id) :=
  ⟨rfl, rfl, rfl, rfl, rfl⟩

/-- C4 counterexample: a column whose every value is a string parsing as an
integer is reported with dtype object by describe-fields, while the
spec's ordered parse rules would infer integer. -/
theorem dtype_pandas_vs_spec_cex :
    describe_member_fields [[("n", Value.vStr "1")], [("n", Value.vStr "2")]] =
      [("n", "object", ["1", "2"])] ∧
    specInferType
        (columnValues
          (flatten [[("n", Value.vStr "1")], [("n", Value.vStr "2")]]) "n") =
      "integer" ∧
    ("object" : String) ≠ "integer" := by
  refine ⟨by decide, by decide, by decide⟩

/-- C4 amended: describe-fields reports, for each column, the pandas storage
dtype of the flattened column (`dtypeOf`), not parse-based inference; in
particular a column containing any string value is reported object even
when every value parses as an integer. -/
theorem dtype_from_storage (df : Table) (c : String) (s : String)
    (hc : c ∈ df.cols) (hs : some (Value.vStr s) ∈ columnValues df c) :
    (c, dtypeOf (columnValues df c), sample_values (columnValues df c))
        ∈ describeInfo df ∧
    dtypeOf (columnValues df c) = "object" := by
  constructor
  · unfold describeInfo
    exact List.mem_map_of_mem _ hc
  · exact dtypeOf_object_of_str _ s hs

/-- Witness for the amended C4 at a concrete table. -/
theorem dtype_from_storage_witness :
    ("n", dtypeOf (columnValues (flatten [[("n", Value.vStr "1")]]) "n"),
        sample_values (columnValues (flatten [[("n", Value.vStr "1")]]) "n"))
      ∈ describeInfo (flatten [[("n", Value.vStr "1")]]) ∧
    dtypeOf (columnValues (flatten [[("n", Value.vStr "1")]]) "n") = "object" :=
  dtype_from_storage (flatten [[("n", Value.vStr "1")]]) "n" "1"
    (by decide) (by decide)

/-- C5 counterexample: comparing the string column name against a numeric
literal with the greater-than operator makes the whole operation return
the TypeError payload — the row is not merely excluded, and the result is
not the empty row list the claim would predict. -/
theorem type_mismatch_aborts_cex :
    get_members [[("name", Value.vStr "Alice")]] (some "name > 30") =
      ToolResult.error
        ("Invalid query: \x27>\x27 not supported between instances of \x27str\x27 and \x27int\x27") ∧
    get_members [[("name", Value.vStr "Alice")]] (some "name > 30") ≠
      ToolResult.rows [] := by
  refine ⟨by decide, by decide⟩

/-- C5 amended: a row on which the comparison raises a type error aborts the
whole filter — the operation returns an error payload instead of a
filtered row list. -/
theorem type_mismatch_aborts (result : RawBatch) (q : String) (p : Pred)
    (hq : q ≠ "") (hp : parseQuery (tokenize q) = some p)
    (hchk : checkCols p (flatten result).cols = Except.ok ())
    (herr : (flatten result).rows.any (fun r => isError (evalRow p r)) = true) :
    ∃ msg, get_members result (some q) = ToolResult.error msg := by
  obtain ⟨e, he⟩ := filterRows_error_of_any p (flatten result).rows herr
  refine ⟨"Invalid query: " ++ e.message, ?_⟩
  unfold get_members queryBlock runQuery
  simp [pyTruthy, hq, hp, dfQuery, hchk, he]

/-- Witness for the amended C5 at a concrete table and predicate. -/
theorem type_mismatch_aborts_witness :
    ∃ msg, get_members [[("name", Value.vStr "Alice")]] (some "name > 30") =
      ToolResult.error msg :=
  type_mismatch_aborts [[("name", Value.vStr "Alice")]] "name > 30"
    (Pred.cmp "name" CmpOp.gt (Value.vInt 30))
    (by decide) (by decide) (by rfl) (by decide)

/-- C6: the sample values reported by describe-fields for a column are at
most five strings, pairwise distinct, forming a subsequence (hence
first-occurrence order) of the string renderings of the column's non-null
values. -/
theorem sample_values_spec (df : Table) (c : String) (hc : c ∈ df.cols) :
    (c, dtypeOf (columnValues df c), sample_values (columnValues df c))
        ∈ describeInfo df ∧
    (sample_values (columnValues df c)).length ≤ 5 ∧
    (sample_values (columnValues df c)).Nodup ∧
    List.Sublist (sample_values (columnValues df c))
      (((columnValues df c).filterMap id).map renderValue) := by
  refine ⟨?_, ?_, ?_, ?_⟩
  · unfold describeInfo
    exact List.mem_map_of_mem _ hc
  · unfold sample_values
    exact List.length_take_le 5 _
  · unfold sample_values
    exact (dedupFirst_nodup _).sublist (List.take_sublist 5 _)
  · unfold sample_values
    exact (List.take_sublist 5 _).trans (dedupFirst_sublist _)

/-- Witness for C6 at a concrete table with duplicated and null cells. -/
theorem sample_values_spec_witness :
    ("d", dtypeOf (columnValues (flatten [[("d", Value.vStr "Sales")],
          [], [("d", Value.vStr "Sales")], [("d", Value.vStr "Eng")]]) "d"),
        sample_values (columnValues (flatten [[("d", Value.vStr "Sales")],
          [], [("d", Value.vStr "Sales")], [("d", Value.vStr "Eng")]]) "d"))
      ∈ describeInfo (flatten [[("d", Value.vStr "Sales")],
          [], [("d", Value.vStr "Sales")], [("d", Value.vStr "Eng")]]) ∧
    (sample_values (columnValues (flatten [[("d", Value.vStr "Sales")],
          [], [("d", Value.vStr "Sales")], [("d", Value.vStr "Eng")]]) "d")).length ≤ 5 ∧
    (sample_values (columnValues (flatten [[("d", Value.vStr "Sales")],
          [], [("d", Value.vStr "Sales")], [("d", Value.vStr "Eng")]]) "d")).Nodup ∧
    List.Sublist
      (sample_values (columnValues (flatten [[("d", Value.vStr "Sales")],
          [], [("d", Value.vStr "Sales")], [("d", Value.vStr "Eng")]]) "d"))
      (((columnValues (flatten [[("d", Value.vStr "Sales")],
          [], [("d", Value.vStr "Sales")], [("d", Value.vStr "Eng")]]) "d").filterMap id).map
        renderValue) :=
  sample_values_spec (flatten [[("d", Value.vStr "Sales")],
    [], [("d", Value.vStr "Sales")], [("d", Value.vStr "Eng")]]) "d" (by decide)

/-- C7: a list-rows call with no predicate returns all rows of the flattened
Table in original order, and the flattened row count equals the upstream
batch size; this holds for the members operation and for the sheet
operation. -/
theorem no_predicate_all_rows (result : RawBatch)
    (fetch : Option Int → RawBatch) (st : ServerState) (sheet_id : Int) :
    get_members result none = ToolResult.rows (flatten result).rows ∧
    (flatten result).rows.length = result.length ∧
    (get_sheets fetch st sheet_id none).2 =
      ToolResult.rows (flatten (fetch (some sheet_id))).rows ∧
    (flatten (fetch (some sheet_id))).rows.length =
      (fetch (some sheet_id)).length := by
  refine ⟨rfl, ?_, rfl, ?_⟩
  · simp [flatten]
  · simp [flatten]

/-- C8: the flattened Table is column-uniform — every row's key sequence is
exactly the Table's column list, every field name of every raw record
appears in the column list, and row i is the explicit per-column lookup
of raw record i, so a missing upstream value appears as an explicit null
entry rather than being omitted; the rows returned by the caller-facing
operation are exactly these rows. -/
theorem flatten_uniform_columns (batch : RawBatch) (row : Record)
    (r : RawRecord) (k : String) (i : Nat)
    (hrow : row ∈ (flatten batch).rows) (hr : r ∈ batch) (hk : k ∈ rawKeys r) :
    row.map Prod.fst = (flatten batch).cols ∧
    k ∈ (flatten batch).cols ∧
    ((flatten batch).rows).get? i =
      (batch.get? i).map
        (fun r2 => (flatten batch).cols.map (fun c => (c, lookupRaw r2 c))) ∧
    get_members batch none = ToolResult.rows (flatten batch).rows := by
  refine ⟨flatten_row_keys batch row hrow, ?_, ?_, rfl⟩
  · show k ∈ columnUnion batch
    exact columnUnion_complete batch r k hr hk
  · simp [flatten]

/-- Witness for C8 at a concrete two-record batch with differing field sets. -/
theorem flatten_uniform_columns_witness :
    [("a", some (Value.vInt 1)), ("b", (none : Option Value))].map Prod.fst =
      (flatten [[("a", Value.vInt 1)], [("b", Value.vStr "x")]]).cols ∧
    "b" ∈ (flatten [[("a", Value.vInt 1)], [("b", Value.vStr "x")]]).cols ∧
    ((flatten [[("a", Value.vInt 1)], [("b", Value.vStr "x")]]).rows).get? 1 =
      (([[("a", Value.vInt 1)], [("b", Value.vStr "x")]] : RawBatch).get? 1).map
        (fun r2 =>
          (flatten [[("a", Value.vInt 1)], [("b", Value.vStr "x")]]).cols.map
            (fun c => (c, lookupRaw r2 c))) ∧
    get_members [[("a", Value.vInt 1)], [("b", Value.vStr "x")]] none =
      ToolResult.rows (flatten [[("a", Value.vInt 1)], [("b", Value.vStr "x")]]).rows :=
  flatten_uniform_columns [[("a", Value.vInt 1)], [("b", Value.vStr "x")]]
    [("a", some (Value.vInt 1)), ("b", (none : Option Value))]
    [("b", Value.vStr "x")] "b" 1 (by decide) (by decide) (by decide)

/-- C9: a cache put at time T is returned by a get strictly before T plus
ttl, is absent at T plus ttl plus epsilon, yet the stale entry is still
stored (get never evicts — it is a pure read), and the next put for the
same key overwrites it. -/
theorem cache_ttl (c : Cache) (key : String) (t t2 : Table)
    (T T2 ttl ε : Nat) (h1 : 0 < ε) (h2 : ε ≤ ttl) :
    ((c.put key t T).get key (T + ttl - ε) ttl = some t) ∧
    ((c.put key t T).get key (T + ttl + ε) ttl = none) ∧
    ((c.put key t T).lookup key = some (CacheEntry.mk t T)) ∧
    (((c.put key t T).put key t2 T2).lookup key =
      some (CacheEntry.mk t2 T2)) := by
  have hl : ∀ (c2 : Cache) (t3 : Table) (T3 : Nat),
      (c2.put key t3 T3).lookup key = some (CacheEntry.mk t3 T3) := by
    intro c2 t3 T3
    simp [Cache.put, Cache.lookup]
  refine ⟨?_, ?_, hl c t T, hl _ t2 T2⟩
  · unfold Cache.get
    rw [hl c t T]
    simp only
    rw [if_pos (by omega)]
  · unfold Cache.get
    rw [hl c t T]
    simp only
    rw [if_neg (by omega)]

/-- Witness for C9 at concrete times: put at 0, ttl 600, epsilon 1. -/
theorem cache_ttl_witness :
    ((Cache.empty.put "members" (Table.mk [] []) 0).get "members" (0 + 600 - 1) 600 =
      some (Table.mk [] [])) ∧
    ((Cache.empty.put "members" (Table.mk [] []) 0).get "members" (0 + 600 + 1) 600 =
      none) ∧
    ((Cache.empty.put "members" (Table.mk [] []) 0).lookup "members" =
      some (CacheEntry.mk (Table.mk [] []) 0)) ∧
    (((Cache.empty.put "members" (Table.mk [] []) 0).put "members"
        (Table.mk [] []) 900).lookup "members" =
      some (CacheEntry.mk (Table.mk [] []) 900)) :=
  cache_ttl Cache.empty "members" (Table.mk [] []) (Table.mk [] []) 0 900 600 1
    (by decide) (by decide)

/-- C10: supplying the empty string as the predicate behaves exactly like
supplying no predicate: the guard treats the empty string as falsy, no
filtering runs, all rows are returned, and no invalid-predicate error is
reported; this holds for the members operation and the sheet operation. -/
theorem empty_query_no_filter (result : RawBatch)
    (fetch : Option Int → RawBatch) (st : ServerState) (sheet_id : Int) :
    get_members result (some "") = get_members result none ∧
    get_members result (some "") = ToolResult.rows (flatten result).rows ∧
    get_sheets fetch st sheet_id (some "") = get_sheets fetch st sheet_id none ∧
    (get_sheets fetch st sheet_id (some "")).2 =
      ToolResult.rows (flatten (fetch (some sheet_id))).rows :=
  ⟨rfl, rfl, rfl, rfl⟩

end KaonaviMcp
